import Mathlib

/-!
Verification of the Mumbai Rain Monitor weather pipeline.

The repository consists of several near-duplicate Express servers that fetch
weather readings for a fixed list of Mumbai zones, reconcile multi-source
readings into a single rainfall value per zone, raise alerts when reconciled
rainfall reaches 1 mm/hr, keep a bounded newest-first alert history, and
classify aggregate flood risk.

This file gives a shallow embedding of the relevant functions:
- JS numbers are modelled as exact rationals; `Math.round` is floor of x + 1/2.
- Hidden inputs of the source (wall clock, `Math.random`) are made explicit
  parameters so the dependence on them can be stated and proved.
- String fields irrelevant to every claim (ISO timestamps of snapshot entries,
  provider-attribution join strings of the snapshot) are omitted from the
  snapshot record; all fields inspected by any claim are kept.

Embedded source locations:
- `getRainfallIntensity`          : src/unnamed/part_000 lines 65-71
- `getRainfallIntensityLegacy`    : src/server.js lines 68-73
- `getRainfallIntensityDbg`       : src/debug_server.js lines 969-975
- `isMonitoringSeason`            : src/server.js lines 75-78
- `finalRainfall` and friends     : src/unnamed/part_000 lines 275-299
- `validatedWeather`              : src/unnamed/part_000 lines 301-326
- `fetchRealWeatherData`          : src/unnamed/part_000 lines 241-326
- `processRainAlerts`             : src/server.js lines 166-194
- `assessFloodRisk`               : src/server.js lines 230-243
- `combineWeatherSources`         : src/debug_server.js lines 1203-1253
- `startHandler`                  : src/server.js lines 600-629
- `debugStartHandler`             : src/debug_server.js lines 841-847
- `srvExtractRainfall`            : src/server.js line 112
- `generateSampleZone`            : src/server.js lines 81-97
-/

namespace RainMonitor

/-- JavaScript `Math.round` on an exact rational: floor of x + 1/2
(rounds halves toward positive infinity, as JS does). -/
def jsRound (x : ℚ) : ℤ := Int.floor (x + 1/2)

/-- `Math.round(x * 100) / 100`: round to two decimal places, as used for the
fused rainfall value (part_000 line 308, debug_server line 1239). -/
def round2 (x : ℚ) : ℚ := (jsRound (x * 100) : ℚ) / 100

/-- A zone of the static registry: name and coordinates. -/
structure Zone where
  name : String
  lat : ℚ
  lon : ℚ
deriving DecidableEq, Repr

/-- One provider's normalized reading for one zone, with the fields the fusion
code reads (`source`, `rainfall`, `temperature`, `humidity`, `pressure`,
`windSpeed`, `cloudCover`, `description`, `timestamp`). -/
structure SourceReading where
  source : String
  rainfall : ℚ
  temperature : ℚ
  humidity : ℚ
  pressure : ℚ
  windSpeed : ℚ
  cloudCover : ℚ
  description : String
  timestamp : String
deriving DecidableEq, Repr

/-- One zone's entry of the current weather snapshot (the per-zone object the
update cycle stores and `processRainAlerts` reads). -/
structure ZoneWeather where
  zone : String
  rainfall : ℚ
  intensity : String
  temperature : ℚ
  humidity : ℚ
  description : String
  realData : Bool
deriving DecidableEq, Repr

/-- Intensity bucketing of src/unnamed/part_000 lines 65-71: `mm <= 0.01` is
"No Rain", then bands at 2.5, 7.5 and 35. -/
def getRainfallIntensity (mm : ℚ) : String :=
  if mm ≤ 1/100 then "No Rain"
  else if mm < 5/2 then "Light"
  else if mm < 15/2 then "Medium"
  else if mm < 35 then "Heavy"
  else "Very Heavy"

/-- Intensity bucketing of src/server.js lines 68-73: the legacy variant with
no "No Rain" band. -/
def getRainfallIntensityLegacy (mm : ℚ) : String :=
  if mm < 5/2 then "Light"
  else if mm < 15/2 then "Medium"
  else if mm < 35 then "Heavy"
  else "Very Heavy"

/-- Intensity bucketing of src/debug_server.js lines 969-975 (the multi-API
section): `mm < 0.1` is "No Rain". -/
def getRainfallIntensityDbg (mm : ℚ) : String :=
  if mm < 1/10 then "No Rain"
  else if mm < 5/2 then "Light"
  else if mm < 15/2 then "Medium"
  else if mm < 35 then "Heavy"
  else "Very Heavy"

/-- Rank of an intensity label, for stating monotonicity of the bucketing. -/
def intensityRank (s : String) : ℕ :=
  if s = "No Rain" then 0
  else if s = "Light" then 1
  else if s = "Medium" then 2
  else if s = "Heavy" then 3
  else 4

/-- Season gate of src/server.js lines 75-78 (identical in part_000 and
debug_server): `month >= 7 || month <= 1`, with `month = getMonth() + 1`,
so July through January. -/
def isMonitoringSeason (month : ℕ) : Bool :=
  decide (7 ≤ month) || decide (month ≤ 1)

/-! Reconciliation of src/unnamed/part_000 `fetchRealWeatherData`
(lines 275-299): classify each successful source as clear (rainfall at most
0.01 mm) or rainy, declare the zone clear if clear sources outnumber rainy
ones, otherwise average the rainfall of the sources reporting more than
0.01 mm. -/

/-- Number of successful sources reporting rainfall at most 0.01 mm
(`clearWeatherCount`, part_000 lines 280-286). -/
def clearWeatherCount (ss : List SourceReading) : ℕ :=
  (ss.filter (fun s => decide (s.rainfall ≤ 1/100))).length

/-- Number of successful sources reporting rainfall above 0.01 mm
(`rainyWeatherCount`, part_000 lines 280-286). -/
def rainyWeatherCount (ss : List SourceReading) : ℕ :=
  (ss.filter (fun s => !decide (s.rainfall ≤ 1/100))).length

/-- The sources reporting rain (`rainSources`, part_000 line 294:
`filter(s => s.rainfall > 0.01)`). -/
def rainSources (ss : List SourceReading) : List SourceReading :=
  ss.filter (fun s => decide (1/100 < s.rainfall))

/-- The fused rainfall value `finalRainfall` of part_000 lines 276-299:
0 when clear sources strictly outnumber rainy ones, otherwise the mean of the
rain-reporting sources (0 if there are none, the initial value). -/
def finalRainfall (ss : List SourceReading) : ℚ :=
  if rainyWeatherCount ss < clearWeatherCount ss then 0
  else if 0 < (rainSources ss).length then
    ((rainSources ss).map SourceReading.rainfall).sum / ((rainSources ss).length : ℚ)
  else 0

/-- The clamp `Math.max(0, rainfall)` every part_000 fetcher applies to the
rainfall it stores in its source reading (part_000 lines 108, 153, 196). -/
def clampRainfall (r : ℚ) : ℚ := max 0 r

/-- Placeholder reading used only to total functions that the source applies
to lists it has already checked nonempty. -/
def noSource : SourceReading :=
  { source := "", rainfall := 0, temperature := 0, humidity := 0, pressure := 0
    windSpeed := 0, cloudCover := 0, description := "", timestamp := "" }

/-- The most reliable source for the non-rainfall fields (part_000 lines
302-304): prefer OpenWeatherMap, then WeatherAPI.com, else the first source. -/
def primarySource (ss : List SourceReading) : SourceReading :=
  match ss.find? (fun s => s.source == "OpenWeatherMap") with
  | some s => s
  | none =>
    match ss.find? (fun s => s.source == "WeatherAPI.com") with
    | some s => s
    | none => ss.headD noSource

/-- The `validatedWeather` object of part_000 lines 306-322, built from a
nonempty list of successful sources: fused rainfall rounded to 2 decimals,
intensity of the unrounded fused value, mean temperature and humidity. -/
def validatedWeather (zoneName : String) (ss : List SourceReading) : ZoneWeather :=
  { zone := zoneName
    rainfall := round2 (finalRainfall ss)
    intensity := getRainfallIntensity (finalRainfall ss)
    temperature := (jsRound ((ss.map SourceReading.temperature).sum / (ss.length : ℚ)) : ℚ)
    humidity := (jsRound ((ss.map SourceReading.humidity).sum / (ss.length : ℚ)) : ℚ)
    description := if 1/100 < finalRainfall ss then "rain detected"
                   else (primarySource ss).description
    realData := true }

/-- The zero-source fallback reading of part_000 lines 260-273: rainfall 0,
intensity "No Data", default Mumbai temperature and humidity, flagged as not
real data. -/
def noDataReading (zoneName : String) : ZoneWeather :=
  { zone := zoneName
    rainfall := 0
    intensity := "No Data"
    temperature := 29
    humidity := 75
    description := "Data unavailable"
    realData := false }

/-- `fetchRealWeatherData` of part_000 lines 241-326, as a function of the
set of source readings that were fetched successfully: the fallback when no
source succeeded, otherwise the validated fusion. -/
def fetchRealWeatherData (zoneName : String) (successfulSources : List SourceReading) :
    ZoneWeather :=
  match successfulSources with
  | [] => noDataReading zoneName
  | _ :: _ => validatedWeather zoneName successfulSources

/-- `updateAllZonesWeather` of part_000 lines 401-428, as a function of the
per-zone fetch results: every registered zone gets exactly one snapshot entry;
a zone with no data does not stop the loop. -/
def updateAllZonesWeather (zones : List String)
    (fetched : String → List SourceReading) : List (String × ZoneWeather) :=
  zones.map (fun z => (z, fetchRealWeatherData z (fetched z)))

/-! Alert evaluation, src/server.js lines 166-194 (identical logic in
part_000 lines 430-457 up to message wording). -/

/-- An alert record, with the fields the claims inspect (the id of the source
is wall clock plus random and the message is a format of these fields). -/
structure Alert where
  zone : String
  rainfall : ℚ
  intensity : String
deriving DecidableEq, Repr

/-- The zones of the current snapshot whose reconciled rainfall is at least
1 mm/hr (`rainyZones`, server.js line 167: `filter(zone => zone.rainfall >= 1)`). -/
def rainyZones (w : List ZoneWeather) : List ZoneWeather :=
  w.filter (fun z => decide (1 ≤ z.rainfall))

/-- The alert synthesized for one triggering zone (server.js lines 173-180). -/
def mkAlert (z : ZoneWeather) : Alert :=
  { zone := z.zone, rainfall := z.rainfall, intensity := z.intensity }

/-- The alerts created in one cycle, in loop order (server.js lines 172-184). -/
def createdAlerts (w : List ZoneWeather) : List Alert :=
  (rainyZones w).map mkAlert

/-- The `alertHistory.unshift(alert)` loop: each new alert is pushed onto the
front of the history. -/
def unshiftAll (h : List Alert) (as : List Alert) : List Alert :=
  as.foldl (fun acc a => a :: acc) h

/-- `processRainAlerts` of server.js lines 166-194: when at least one zone
triggers, push all new alerts onto the front of the history and truncate to
the most recent 100; otherwise leave the history unchanged. -/
def processRainAlerts (w : List ZoneWeather) (h : List Alert) : List Alert :=
  if 0 < (rainyZones w).length then (unshiftAll h (createdAlerts w)).take 100
  else h

/-- One update cycle acting on (history, creation log). The log component
records every alert the cycle creates (the source logs each one at line 183);
it is the observation the claims about alert production quantify over. -/
def cycleStep (w : List ZoneWeather) (s : List Alert × List Alert) :
    List Alert × List Alert :=
  (processRainAlerts w s.1, s.2 ++ createdAlerts w)

/-- n update cycles over a fixed snapshot. -/
def runCycles (w : List ZoneWeather) : ℕ → List Alert × List Alert → List Alert × List Alert
  | 0, s => s
  | n + 1, s => runCycles w n (cycleStep w s)

/-- The concatenation of the creation logs of n cycles over a fixed
snapshot (each cycle creates `createdAlerts w`). -/
def logBlocks (w : List ZoneWeather) : ℕ → List Alert
  | 0 => []
  | n + 1 => createdAlerts w ++ logBlocks w n

/-- `assessFloodRisk` of server.js lines 230-243, applied to the list of
currently triggering zones. -/
def assessFloodRisk (rainy : List ZoneWeather) : String :=
  if 3 ≤ (rainy.filter (fun z => decide (7 ≤ z.rainfall))).length then
    "🔴 HIGH RISK - Multiple zones with heavy rainfall"
  else if 20 < (rainy.map ZoneWeather.rainfall).sum then
    "🟡 MEDIUM RISK - Significant rainfall across areas"
  else if 5 ≤ rainy.length then
    "🟡 MEDIUM RISK - Widespread light rainfall"
  else
    "🟢 LOW RISK - Localized rainfall only"

/-- Whether the notifier (and with it the flood-risk line of the summary
message) runs in a cycle: `processRainAlerts` calls `sendRainNotifications`
only inside the `rainyZones.length > 0` branch (server.js lines 169-190). -/
def notifierInvoked (w : List ZoneWeather) : Bool :=
  decide (0 < (rainyZones w).length)

/-- Aggregate flood-risk level, for comparing the message the code picks with
the classification the specification describes. -/
inductive RiskLevel
  | high
  | medium
  | low
deriving DecidableEq, Repr

/-- Modelled from the spec: the claimed flood-risk classification - HIGH when
at least 3 triggering zones are individually at 7 mm/hr or more, otherwise
MEDIUM when the summed rainfall exceeds 20 mm or at least 5 zones trigger,
otherwise LOW. For the refinement comparison with `assessFloodRisk`. -/
def specFloodRisk (rainy : List ZoneWeather) : RiskLevel :=
  if 3 ≤ (rainy.filter (fun z => decide (7 ≤ z.rainfall))).length then .high
  else if 20 < (rainy.map ZoneWeather.rainfall).sum ∨ 5 ≤ rainy.length then .medium
  else .low

/-- The risk level a flood-risk message of `assessFloodRisk` expresses. -/
def msgRiskLevel (s : String) : RiskLevel :=
  if s = "🔴 HIGH RISK - Multiple zones with heavy rainfall" then .high
  else if s = "🟡 MEDIUM RISK - Significant rainfall across areas"
          ∨ s = "🟡 MEDIUM RISK - Widespread light rainfall" then .medium
  else .low

/-! The weighted-average fusion variant, src/debug_server.js lines 1203-1253.
Its output object carries more fields than the snapshot record of the other
variants, and the single-source branch returns the untouched source reading,
so the result is modelled as a sum of the two shapes the code can return. -/

/-- The fused record the multi-source branch of `combineWeatherSources`
builds (debug_server lines 1237-1252). -/
structure FusedWeather where
  zone : String
  rainfall : ℚ
  intensity : String
  temperature : ℤ
  humidity : ℤ
  pressure : ℤ
  windSpeed : ℚ
  cloudCover : ℚ
  description : String
  timestamp : String
  coordinates : ℚ × ℚ
  sources : List String
  realData : Bool
  accuracy : String
deriving DecidableEq, Repr

/-- The two shapes `combineWeatherSources` can return: the untouched single
source reading, or a fused record. -/
inductive CombinedResult
  | single (s : SourceReading)
  | fused (f : FusedWeather)
deriving DecidableEq, Repr

/-- Fixed per-provider weights of debug_server lines 1207-1212; a lookup miss
falls back to 0.1 (`weights[source.source] || 0.1`, line 1221). -/
def sourceWeight (name : String) : ℚ :=
  if name = "Open-Meteo" then 2/5
  else if name = "OpenWeatherMap" then 3/10
  else if name = "WeatherAPI.com" then 1/5
  else 1/10

/-- JavaScript `(source.pressure || 1013)` of debug_server line 1226: a falsy
(zero) pressure is replaced by 1013. -/
def jsOr1013 (p : ℚ) : ℚ := if p = 0 then 1013 else p

/-- The description source of debug_server line 1235: the Open-Meteo reading
if present, else the first source (callers guarantee a nonempty list,
debug_server line 1190). -/
def dbgPrimarySource (ss : List SourceReading) : SourceReading :=
  match ss.find? (fun s => s.source == "Open-Meteo") with
  | some s => s
  | none => ss.headD noSource

/-- `combineWeatherSources` of debug_server lines 1203-1253. The wall clock
read for the output timestamp (line 1247) is the explicit `now` parameter. -/
def combineWeatherSources (sources : List SourceReading) (zone : Zone)
    (now : String) : CombinedResult :=
  match sources with
  | [s] => .single s
  | _ =>
    let totalWeight := (sources.map (fun s => sourceWeight s.source)).sum
    let avgRainfall :=
      (sources.map (fun s => s.rainfall * sourceWeight s.source)).sum / totalWeight
    .fused {
      zone := zone.name
      rainfall := round2 avgRainfall
      intensity := getRainfallIntensityDbg avgRainfall
      temperature :=
        jsRound ((sources.map (fun s => s.temperature * sourceWeight s.source)).sum / totalWeight)
      humidity :=
        jsRound ((sources.map (fun s => s.humidity * sourceWeight s.source)).sum / totalWeight)
      pressure :=
        jsRound ((sources.map (fun s => jsOr1013 s.pressure * sourceWeight s.source)).sum / totalWeight)
      windSpeed := (dbgPrimarySource sources).windSpeed
      cloudCover := (dbgPrimarySource sources).cloudCover
      description := (dbgPrimarySource sources).description
      timestamp := now
      coordinates := (zone.lat, zone.lon)
      sources := sources.map SourceReading.source
      realData := true
      accuracy := if 1 < sources.length then "High (Multi-API)" else "Medium (Single-API)" }

/-- Zero out the timestamp field of a `combineWeatherSources` result, to state
which part of the output is independent of the wall clock. -/
def eraseTimestamp : CombinedResult → CombinedResult
  | .single s => .single { s with timestamp := "" }
  | .fused f => .fused { f with timestamp := "" }

/-- The timestamp field of a `combineWeatherSources` result. -/
def resultTimestamp : CombinedResult → String
  | .single s => s.timestamp
  | .fused f => f.timestamp

/-! The single-provider variant, src/server.js. -/

/-- Rainfall extraction of server.js line 112,
`data.rain ? (data.rain['1h'] || 0) : 0`: the outer option models the
presence of the `rain` object, the inner one the presence of its `1h` field;
a falsy (zero) figure yields 0. No clamping is applied. -/
def srvExtractRainfall : Option (Option ℚ) → ℚ
  | none => 0
  | some none => 0
  | some (some v) => if v = 0 then 0 else v

/-- The reading server.js `fetchRealWeatherData` builds on a successful fetch
(lines 114-124), as a function of the payload fields it reads. -/
def serverFetchReading (zoneName : String) (rain1h : Option (Option ℚ))
    (temp hum : ℚ) (desc : String) : ZoneWeather :=
  { zone := zoneName
    rainfall := srvExtractRainfall rain1h
    intensity := getRainfallIntensityLegacy (srvExtractRainfall rain1h)
    temperature := (jsRound temp : ℚ)
    humidity := hum
    description := desc
    realData := true }

/-- One zone's entry of server.js `generateSampleWeatherData` (lines 81-97).
The three `Math.random()` draws are explicit parameters in [0, 1). -/
def generateSampleZone (zoneName : String) (rand trand hrand : ℚ) : ZoneWeather :=
  { zone := zoneName
    rainfall := rand * 8
    intensity := getRainfallIntensityLegacy (rand * 8)
    temperature := (jsRound (26 + trand * 8) : ℚ)
    humidity := (jsRound (70 + hrand * 25) : ℚ)
    description := if 3 < rand * 8 then "light rain"
                   else if 1 < rand * 8 then "drizzle" else "partly cloudy"
    realData := false }

/-- The per-zone branch of server.js `updateAllZonesWeather` (lines 138-148):
use the fetched reading when the fetch succeeded, otherwise fall back to the
randomly generated sample entry for that zone. -/
def srvUpdateZoneWeather (fetchResult : Option ZoneWeather)
    (sample : ZoneWeather) : ZoneWeather :=
  match fetchResult with
  | some d => d
  | none => sample

/-! Start/stop state machine. -/

/-- Outcome of a start request: the monitoring flag afterwards, whether the
request was accepted, and how many update cycles it launched. -/
structure StartResult where
  active : Bool
  success : Bool
  updateCycles : ℕ
deriving DecidableEq, Repr

/-- The `POST /api/start` handler of server.js lines 600-629 (identical gate
in part_000 lines 740-768): outside the monitoring season the request is
rejected and nothing changes; inside it, the monitoring flag is set and one
update cycle runs immediately. -/
def startHandler (month : ℕ) (active : Bool) : StartResult :=
  if isMonitoringSeason month then
    { active := true, success := true, updateCycles := 1 }
  else
    { active := active, success := false, updateCycles := 0 }

/-- The `POST /api/start` handler of debug_server lines 841-847: it sets the
monitoring flag unconditionally, with no season check and no immediate update
cycle. The month parameter records that the behaviour ignores the date. -/
def debugStartHandler (_month : ℕ) (_active : Bool) : StartResult :=
  { active := true, success := true, updateCycles := 0 }

/-! Concrete inputs used by the witnesses and counterexamples. -/

/-- A source reading with the given rainfall, for concrete instantiations. -/
def srcWithRain (name : String) (r : ℚ) : SourceReading :=
  { source := name, rainfall := r, temperature := 30, humidity := 70
    pressure := 1003, windSpeed := 3, cloudCover := 80
    description := "overcast", timestamp := "2024-07-01T00:00:00Z" }

/-- A snapshot entry with the given rainfall, for concrete instantiations. -/
def zoneWithRain (name : String) (r : ℚ) : ZoneWeather :=
  { zone := name, rainfall := r, intensity := getRainfallIntensity r
    temperature := 28, humidity := 80, description := "rain", realData := true }

/-- A zone reading at exactly the 1.0 mm/hr threshold. -/
def exDadar : ZoneWeather := zoneWithRain "Dadar" 1

/-- A zone reading just below the threshold, at 0.99 mm/hr. -/
def exColaba : ZoneWeather := zoneWithRain "Colaba" (99/100)

/-- Snapshot with one zone at exactly the 1.0 mm/hr threshold and one just
below it. -/
def exSnapshot : List ZoneWeather := [exDadar, exColaba]

/-- Single-zone snapshot used for the history-bound witness. -/
def exSnapshotOne : List ZoneWeather := [zoneWithRain "Dadar" 2]

/-- A zone of the registry, for the fusion examples. -/
def exZone : Zone := { name := "Dadar", lat := 190183/10000, lon := 728420/10000 }

/-! Helper lemmas. -/

theorem unshiftAll_eq (as : List Alert) : ∀ h, unshiftAll h as = as.reverse ++ h := by
  induction as with
  | nil => intro h; rfl
  | cons a tl ih =>
      intro h
      show unshiftAll (a :: h) tl = (a :: tl).reverse ++ h
      rw [ih (a :: h)]
      simp

theorem take_append_take {α : Type} (a x : List α) (n : ℕ) :
    (a ++ x.take n).take n = (a ++ x).take n := by
  rw [List.take_append_eq_append_take, List.take_append_eq_append_take, List.take_take,
    Nat.min_eq_left (Nat.sub_le _ _)]

theorem head?_take_pos {α : Type} (l : List α) (n : ℕ) (hn : 0 < n) :
    (l.take n).head? = l.head? := by
  cases l with
  | nil => simp
  | cons a t =>
    cases n with
    | zero => exact absurd hn (by omega)
    | succ m => rfl

theorem head?_append_left {α : Type} (l m : List α) (hl : l ≠ []) :
    (l ++ m).head? = l.head? := by
  cases l with
  | nil => exact absurd rfl hl
  | cons a t => rfl

theorem createdAlerts_length (w : List ZoneWeather) :
    (createdAlerts w).length = (rainyZones w).length := by
  simp [createdAlerts]

theorem processRainAlerts_of_rainy (w : List ZoneWeather) (h : List Alert)
    (hk : 0 < (rainyZones w).length) :
    processRainAlerts w h = ((createdAlerts w).reverse ++ h).take 100 := by
  rw [processRainAlerts, if_pos hk, unshiftAll_eq]

theorem processRainAlerts_of_calm (w : List ZoneWeather) (h : List Alert)
    (hk : ¬ 0 < (rainyZones w).length) :
    processRainAlerts w h = h := by
  rw [processRainAlerts, if_neg hk]

theorem createdAlerts_of_calm (w : List ZoneWeather)
    (hk : ¬ 0 < (rainyZones w).length) : createdAlerts w = [] := by
  have : (createdAlerts w).length = 0 := by rw [createdAlerts_length]; omega
  exact List.eq_nil_of_length_eq_zero this

theorem runCycles_snd (w : List ZoneWeather) (n : ℕ) :
    ∀ s : List Alert × List Alert, (runCycles w n s).2 = s.2 ++ logBlocks w n := by
  induction n with
  | zero => intro s; simp [runCycles, logBlocks]
  | succ m ih =>
      intro s
      show (runCycles w m (cycleStep w s)).2 = s.2 ++ (createdAlerts w ++ logBlocks w m)
      rw [ih (cycleStep w s)]
      exact List.append_assoc s.2 (createdAlerts w) (logBlocks w m)

theorem logBlocks_length (w : List ZoneWeather) (n : ℕ) :
    (logBlocks w n).length = n * (createdAlerts w).length := by
  induction n with
  | zero => simp [logBlocks]
  | succ m ih => simp [logBlocks, ih, Nat.succ_mul]; ring

theorem logBlocks_countP (w : List ZoneWeather) (n : ℕ) (p : Alert → Bool) :
    (logBlocks w n).countP p = n * (createdAlerts w).countP p := by
  induction n with
  | zero => simp [logBlocks]
  | succ m ih => simp [logBlocks, List.countP_append, ih, Nat.succ_mul]; ring

theorem cycleStep_inv (w : List ZoneWeather) (b : List Alert)
    (s : List Alert × List Alert) (hs : s.1 = (s.2.reverse ++ b).take 100) :
    (cycleStep w s).1 = ((cycleStep w s).2.reverse ++ b).take 100 := by
  by_cases hk : 0 < (rainyZones w).length
  · show processRainAlerts w s.1 = ((s.2 ++ createdAlerts w).reverse ++ b).take 100
    rw [processRainAlerts_of_rainy w _ hk, hs,
      take_append_take ((createdAlerts w).reverse) (s.2.reverse ++ b) 100]
    simp [List.reverse_append, List.append_assoc]
  · show processRainAlerts w s.1 = ((s.2 ++ createdAlerts w).reverse ++ b).take 100
    rw [processRainAlerts_of_calm w _ hk, createdAlerts_of_calm w hk, hs]
    simp

theorem runCycles_inv (w : List ZoneWeather) (b : List Alert) (n : ℕ) :
    ∀ s : List Alert × List Alert, s.1 = (s.2.reverse ++ b).take 100 →
      (runCycles w n s).1 = ((runCycles w n s).2.reverse ++ b).take 100 := by
  induction n with
  | zero => intro s hs; exact hs
  | succ m ih =>
      intro s hs
      exact ih (cycleStep w s) (cycleStep_inv w b s hs)

theorem clear_add_rainy (ss : List SourceReading) :
    clearWeatherCount ss + rainyWeatherCount ss = ss.length := by
  unfold clearWeatherCount rainyWeatherCount
  exact (List.length_eq_length_filter_add _).symm

theorem rainy_eq_rainSources_length (ss : List SourceReading) :
    rainyWeatherCount ss = (rainSources ss).length := by
  unfold rainyWeatherCount rainSources
  apply congrArg List.length
  apply List.filter_congr
  intro x _
  rw [← decide_not]
  exact decide_eq_decide.mpr not_le

/-! Claim theorems. -/

/-- C1: reconciliation applies the majority-clear rule. For a nonempty set of
successfully fetched source readings: if a strict majority of the sources
report rainfall at most 0.01 mm, the fused rainfall is 0; otherwise it is the
arithmetic mean of exactly the sources reporting more than 0.01 mm (which are
then guaranteed to exist). -/
theorem reconcile_majority_clear_rule (ss : List SourceReading) (hne : ss ≠ []) :
    (ss.length < 2 * clearWeatherCount ss → finalRainfall ss = 0)
    ∧ (¬ ss.length < 2 * clearWeatherCount ss →
        rainSources ss ≠ []
        ∧ finalRainfall ss =
            ((rainSources ss).map SourceReading.rainfall).sum
              / ((rainSources ss).length : ℚ)) := by
  have hpart := clear_add_rainy ss
  have hrs := rainy_eq_rainSources_length ss
  constructor
  · intro hmaj
    have hlt : rainyWeatherCount ss < clearWeatherCount ss := by omega
    rw [finalRainfall, if_pos hlt]
  · intro hmaj
    have hlen : 0 < (rainSources ss).length := by
      rcases Nat.eq_zero_or_pos (rainSources ss).length with h0 | h
      · exfalso
        have hz : ss.length = 0 := by omega
        exact hne (List.eq_nil_of_length_eq_zero hz)
      · exact h
    refine ⟨?_, ?_⟩
    · intro hcon
      rw [hcon] at hlen
      exact absurd hlen (by simp)
    · rw [finalRainfall, if_neg (by omega), if_pos hlen]

/-- C1 witness: for three sources with rainfall 0, 0 and 5 mm the strict
majority reports clear, so the fused rainfall is 0. -/
theorem reconcile_majority_clear_rule_witness :
    finalRainfall
      [srcWithRain "OpenWeatherMap" 0, srcWithRain "WeatherAPI.com" 0,
        srcWithRain "Open-Meteo" 5] = 0 := by
  have h := reconcile_majority_clear_rule
    [srcWithRain "OpenWeatherMap" 0, srcWithRain "WeatherAPI.com" 0,
      srcWithRain "Open-Meteo" 5] (by simp)
  apply h.1
  have hc : clearWeatherCount
      [srcWithRain "OpenWeatherMap" 0, srcWithRain "WeatherAPI.com" 0,
        srcWithRain "Open-Meteo" 5] = 2 := by
    norm_num [clearWeatherCount, srcWithRain, List.filter_cons]
  rw [hc]
  norm_num

/-- C2: in every update cycle an alert is created for a snapshot zone exactly
when its reconciled rainfall is at least 1.0 mm/hr, and the check is repeated
per cycle: over n cycles the creation log holds n times the alerts of one
cycle for any given zone name. -/
theorem alert_threshold_per_zone_per_cycle (w : List ZoneWeather) (z : ZoneWeather)
    (hz : z ∈ w) (name : String) (n : ℕ) (h0 : List Alert) :
    (mkAlert z ∈ createdAlerts w ↔ 1 ≤ z.rainfall)
    ∧ (runCycles w n (h0, [])).2.countP (fun a => a.zone == name)
        = n * (createdAlerts w).countP (fun a => a.zone == name) := by
  constructor
  · constructor
    · intro hmem
      rw [createdAlerts] at hmem
      obtain ⟨z2, hz2, heq⟩ := List.mem_map.mp hmem
      have hrain : z2.rainfall = z.rainfall := congrArg Alert.rainfall heq
      rw [rainyZones, List.mem_filter] at hz2
      have h2 : 1 ≤ z2.rainfall := of_decide_eq_true hz2.2
      rw [hrain] at h2
      exact h2
    · intro hr
      apply List.mem_map_of_mem mkAlert
      rw [rainyZones, List.mem_filter]
      exact ⟨hz, decide_eq_true hr⟩
  · rw [runCycles_snd w n (h0, [])]
    show ([] ++ logBlocks w n).countP _ = _
    rw [List.nil_append, logBlocks_countP]

/-- C2 witness: in a snapshot where Dadar reads exactly 1.0 mm/hr and Colaba
reads 0.99 mm/hr, Dadar gets an alert and Colaba does not, and 4 cycles
create 4 copies of the one-cycle alerts. -/
theorem alert_threshold_witness :
    (mkAlert exDadar ∈ createdAlerts exSnapshot ↔ 1 ≤ exDadar.rainfall)
    ∧ (mkAlert exColaba ∈ createdAlerts exSnapshot ↔ 1 ≤ exColaba.rainfall)
    ∧ (runCycles exSnapshot 4 ([], [])).2.countP (fun a => a.zone == "Dadar")
        = 4 * (createdAlerts exSnapshot).countP (fun a => a.zone == "Dadar") :=
  ⟨(alert_threshold_per_zone_per_cycle exSnapshot exDadar (by simp [exSnapshot]) "Dadar" 4 []).1,
   (alert_threshold_per_zone_per_cycle exSnapshot exColaba (by simp [exSnapshot]) "Dadar" 4 []).1,
   (alert_threshold_per_zone_per_cycle exSnapshot exDadar (by simp [exSnapshot]) "Dadar" 4 []).2⟩

/-- C3: starting from a history within the bound, after any number of cycles
the history is exactly the newest-first prefix (100 entries) of the reversed
creation log prepended to the initial history; hence it never exceeds 100
entries, and once at least 100 alert-producing cycles have run it has exactly
100 entries and its first element is the most recently created alert. -/
theorem alert_history_bound_newest_first (w : List ZoneWeather) (h0 : List Alert)
    (n : ℕ) (hb : h0.length ≤ 100) :
    (runCycles w n (h0, [])).1
        = (((runCycles w n (h0, [])).2).reverse ++ h0).take 100
    ∧ (runCycles w n (h0, [])).1.length ≤ 100
    ∧ (0 < (rainyZones w).length → 100 ≤ n →
        (runCycles w n (h0, [])).1.length = 100
        ∧ (runCycles w n (h0, [])).1.head? = ((runCycles w n (h0, [])).2).getLast?) := by
  have hinv : (runCycles w n (h0, [])).1
      = (((runCycles w n (h0, [])).2).reverse ++ h0).take 100 := by
    apply runCycles_inv w h0 n (h0, [])
    show h0 = ([].reverse ++ h0).take 100
    rw [List.reverse_nil, List.nil_append, List.take_of_length_le hb]
  have hlog : (runCycles w n (h0, [])).2.length = n * (createdAlerts w).length := by
    rw [runCycles_snd w n (h0, [])]
    show ([] ++ logBlocks w n).length = _
    rw [List.nil_append, logBlocks_length]
  have hlen : (runCycles w n (h0, [])).1.length
      = min 100 ((runCycles w n (h0, [])).2.length + h0.length) := by
    rw [hinv]
    simp [List.length_take]
  refine ⟨hinv, ?_, ?_⟩
  · rw [hlen]; exact Nat.min_le_left _ _
  · intro hk hn
    have hck : 0 < (createdAlerts w).length := by rw [createdAlerts_length]; exact hk
    have hge : n ≤ n * (createdAlerts w).length := Nat.le_mul_of_pos_right n hck
    constructor
    · omega
    · have hlogne : (runCycles w n (h0, [])).2 ≠ [] := by
        intro he
        rw [he] at hlog
        simp only [List.length_nil] at hlog
        omega
      rw [hinv, head?_take_pos _ _ (by omega),
        head?_append_left _ _ (by simpa using hlogne)]
      exact List.head?_reverse _

/-- C3 witness: from an empty history, 100 cycles over a snapshot with one
zone at 2 mm/hr leave exactly 100 alerts, the first being the newest. -/
theorem alert_history_bound_witness :
    (runCycles exSnapshotOne 100 ([], [])).1.length = 100
    ∧ (runCycles exSnapshotOne 100 ([], [])).1.head?
        = ((runCycles exSnapshotOne 100 ([], [])).2).getLast? :=
  (alert_history_bound_newest_first exSnapshotOne [] 100 (by decide)).2.2
    (by decide) (by decide)

/-- C4 counterexample: at exactly 0.01 mm the part_000 bucketing returns
"No Rain", not "Light" as the claimed half-open band [0.01, 2.5) would
require - the code's "No Rain" test is `mm <= 0.01`, inclusive. -/
theorem intensity_boundary_cex :
    getRainfallIntensity (1/100) = "No Rain"
    ∧ getRainfallIntensity (1/100) ≠ "Light" := by
  constructor
  · norm_num [getRainfallIntensity]
  · norm_num [getRainfallIntensity]
    decide

/-- C4 amended: the bucketing is monotonic non-decreasing across the band
boundaries, with the bands r ≤ 0.01 → "No Rain", (0.01, 2.5) → "Light",
[2.5, 7.5) → "Medium", [7.5, 35) → "Heavy", [35, ∞) → "Very Heavy"; the
legacy variant has no "No Rain" band and maps everything below 2.5 to
"Light". -/
theorem intensity_monotone_bands (r q : ℚ) (hrq : r ≤ q) :
    intensityRank (getRainfallIntensity r) ≤ intensityRank (getRainfallIntensity q)
    ∧ (r ≤ 1/100 → getRainfallIntensity r = "No Rain")
    ∧ (1/100 < r → r < 5/2 → getRainfallIntensity r = "Light")
    ∧ (5/2 ≤ r → r < 15/2 → getRainfallIntensity r = "Medium")
    ∧ (15/2 ≤ r → r < 35 → getRainfallIntensity r = "Heavy")
    ∧ (35 ≤ r → getRainfallIntensity r = "Very Heavy")
    ∧ intensityRank (getRainfallIntensityLegacy r)
        ≤ intensityRank (getRainfallIntensityLegacy q)
    ∧ (r < 5/2 → getRainfallIntensityLegacy r = "Light") := by
  refine ⟨?_, ?_, ?_, ?_, ?_, ?_, ?_, ?_⟩
  · unfold getRainfallIntensity
    split_ifs <;> first | decide | linarith
  · intro h; rw [getRainfallIntensity, if_pos h]
  · intro h1 h2
    rw [getRainfallIntensity, if_neg (by linarith), if_pos h2]
  · intro h1 h2
    rw [getRainfallIntensity, if_neg (by linarith), if_neg (by linarith), if_pos h2]
  · intro h1 h2
    rw [getRainfallIntensity, if_neg (by linarith), if_neg (by linarith),
      if_neg (by linarith), if_pos h2]
  · intro h
    rw [getRainfallIntensity, if_neg (by linarith), if_neg (by linarith),
      if_neg (by linarith), if_neg (by linarith)]
  · unfold getRainfallIntensityLegacy
    split_ifs <;> first | decide | linarith
  · intro h; rw [getRainfallIntensityLegacy, if_pos h]

/-- C4 witness: 0.005 maps to "No Rain" and 8 to "Heavy", in rank order. -/
theorem intensity_monotone_bands_witness :
    intensityRank (getRainfallIntensity (1/200)) ≤ intensityRank (getRainfallIntensity 8)
    ∧ getRainfallIntensity (1/200) = "No Rain"
    ∧ getRainfallIntensity 8 = "Heavy" :=
  ⟨(intensity_monotone_bands (1/200) 8 (by norm_num)).1,
   (intensity_monotone_bands (1/200) 8 (by norm_num)).2.1 (by norm_num),
   (intensity_monotone_bands 8 8 le_rfl).2.2.2.2.1 (by norm_num) (by norm_num)⟩

/-- C5 counterexample: the single-provider server.js fetcher stores the
provider's rainfall figure without clamping, so a negative payload value
(here, a rain object with a -0.5 figure in its 1h field) yields a source
reading with negative rainfall. -/
theorem negative_rainfall_unclamped_cex :
    (serverFetchReading "Colaba" (some (some (-(1/2)))) 30 80 "rain").rainfall < 0 := by
  norm_num [serverFetchReading, srvExtractRainfall]

/-- C5 amended: in the multi-source part_000 variant every fetcher clamps its
rainfall with `Math.max(0, rainfall)`, and the fused rainfall - both before
and after the 2-decimal rounding - is never negative, whatever the source
readings are; the server.js single-provider fetcher applies no clamp. -/
theorem reconciled_rainfall_nonneg (r : ℚ) (ss : List SourceReading) :
    0 ≤ clampRainfall r
    ∧ 0 ≤ finalRainfall ss
    ∧ 0 ≤ round2 (finalRainfall ss) := by
  have hfr : 0 ≤ finalRainfall ss := by
    rw [finalRainfall]
    split_ifs with h1 h2
    · exact le_refl 0
    · apply div_nonneg
      · apply List.sum_nonneg
        intro x hx
        obtain ⟨s, hs, hxs⟩ := List.mem_map.mp hx
        rw [rainSources, List.mem_filter] at hs
        have hgt : 1/100 < s.rainfall := of_decide_eq_true hs.2
        rw [← hxs]
        linarith
      · exact Nat.cast_nonneg _
    · exact le_refl 0
  refine ⟨le_max_left 0 r, hfr, ?_⟩
  rw [round2, jsRound]
  apply div_nonneg _ (by norm_num)
  have hph : (0:ℚ) ≤ finalRainfall ss * 100 + 1/2 := by linarith
  exact_mod_cast Int.le_floor.mpr (by exact_mod_cast hph)

/-- C6: the flood-risk message picked by `assessFloodRisk` expresses exactly
the claimed classification (HIGH when at least 3 triggering zones are at
7 mm/hr or more, otherwise MEDIUM when the summed rainfall exceeds 20 mm or
at least 5 zones trigger, otherwise LOW), and with zero triggering zones the
notifier - and with it any flood-risk message - is not invoked at all. -/
theorem flood_risk_classification (w : List ZoneWeather) :
    msgRiskLevel (assessFloodRisk (rainyZones w)) = specFloodRisk (rainyZones w)
    ∧ (rainyZones w = [] → notifierInvoked w = false) := by
  constructor
  · generalize rainyZones w = rainy
    unfold assessFloodRisk specFloodRisk
    split_ifs <;> first | decide | tauto
  · intro he
    simp [notifierInvoked, he]

/-- C6 witness: on the example snapshot the message matches the spec
classification, and on an empty snapshot the notifier does not run. -/
theorem flood_risk_witness :
    msgRiskLevel (assessFloodRisk (rainyZones exSnapshot)) = specFloodRisk (rainyZones exSnapshot)
    ∧ notifierInvoked ([] : List ZoneWeather) = false :=
  ⟨(flood_risk_classification exSnapshot).1,
   (flood_risk_classification []).2 rfl⟩

/-- C7 counterexample: in the server.js variant a zone whose fetch failed
falls back to randomly generated sample data, not to a zero/"No Data"
reading - with the random draw 1/2 the fallback reading reports 4 mm/hr of
rain with intensity "Medium". -/
theorem zero_sources_sample_fallback_cex :
    (srvUpdateZoneWeather none (generateSampleZone "Colaba" (1/2) 0 0)).rainfall ≠ 0
    ∧ (srvUpdateZoneWeather none (generateSampleZone "Colaba" (1/2) 0 0)).intensity
        ≠ "No Data" := by
  constructor
  · norm_num [srvUpdateZoneWeather, generateSampleZone]
  · norm_num [srvUpdateZoneWeather, generateSampleZone, getRainfallIntensityLegacy]
    decide

/-- C7 amended: in the multi-source part_000 variant, a zone for which zero
source fetches succeed gets a reading with rainfall 0, intensity "No Data",
flagged as not-real data, and the update loop still produces exactly one
entry per registered zone; the server.js variant instead falls back to
randomly generated sample data for such a zone. -/
theorem zero_sources_no_data_reading (zoneName : String) (zones : List String)
    (fetched : String → List SourceReading) :
    (fetchRealWeatherData zoneName []).rainfall = 0
    ∧ (fetchRealWeatherData zoneName []).intensity = "No Data"
    ∧ (fetchRealWeatherData zoneName []).realData = false
    ∧ (updateAllZonesWeather zones fetched).length = zones.length
    ∧ ∀ z ∈ zones,
        (z, fetchRealWeatherData z (fetched z)) ∈ updateAllZonesWeather zones fetched := by
  refine ⟨rfl, rfl, rfl, by simp [updateAllZonesWeather], ?_⟩
  intro z hz
  exact List.mem_map_of_mem _ hz

/-- C7 witness: with every fetch failing, both zones of a two-zone registry
still get their "No Data" entry. -/
theorem zero_sources_no_data_witness :
    (fetchRealWeatherData "Colaba" []).rainfall = 0
    ∧ (fetchRealWeatherData "Colaba" []).intensity = "No Data"
    ∧ (fetchRealWeatherData "Colaba" []).realData = false
    ∧ (updateAllZonesWeather ["Colaba", "Dadar"] (fun _ => [])).length = 2
    ∧ ("Colaba", fetchRealWeatherData "Colaba" [])
        ∈ updateAllZonesWeather ["Colaba", "Dadar"] (fun _ => []) := by
  obtain ⟨h1, h2, h3, h4, h5⟩ :=
    zero_sources_no_data_reading "Colaba" ["Colaba", "Dadar"] (fun _ => [])
  exact ⟨h1, h2, h3, h4, h5 "Colaba" (by simp)⟩

/-- C8 counterexample: `combineWeatherSources` embeds the wall clock in its
output, so two calls on the same fixed pair of source readings made at
different times yield different (not bit-identical) outputs. -/
theorem fusion_wallclock_cex :
    combineWeatherSources [srcWithRain "Open-Meteo" 2, srcWithRain "OpenWeatherMap" 1]
        exZone "2024-07-01T00:00:00Z"
      ≠ combineWeatherSources [srcWithRain "Open-Meteo" 2, srcWithRain "OpenWeatherMap" 1]
        exZone "2024-07-01T00:30:00Z" := by
  intro h
  have h2 := congrArg resultTimestamp h
  simp [resultTimestamp, combineWeatherSources] at h2

/-- C8 amended: apart from the wall-clock timestamp field, the fusion output
is a function of the source readings and the zone alone - two calls on the
same input agree on every other field whatever the clock reads, with no
hidden randomness. -/
theorem fusion_deterministic_up_to_timestamp (sources : List SourceReading)
    (zone : Zone) (t1 t2 : String) :
    eraseTimestamp (combineWeatherSources sources zone t1)
      = eraseTimestamp (combineWeatherSources sources zone t2) := by
  cases sources with
  | nil => rfl
  | cons a tl =>
    cases tl with
    | nil => rfl
    | cons b tl2 => rfl

/-- C9 counterexample: the debug_server start handler accepts a start request
and flips the monitoring state to active even in March, which is outside the
July-January monitoring season (and it launches no immediate update cycle). -/
theorem start_gate_unconditional_cex :
    isMonitoringSeason 3 = false
    ∧ (debugStartHandler 3 false).success = true
    ∧ (debugStartHandler 3 false).active = true := by
  decide

/-- C9 amended: in the server.js and part_000 variants, a start request is
rejected with no state transition whenever the month is outside July-January
(month at least 7 or at most 1, wrapping across year-end), and inside the
season it sets the state to active and immediately runs one update cycle;
the debug_server variant has no season gate at all. -/
theorem start_season_gate (month : ℕ) (active : Bool) :
    (isMonitoringSeason month = true ↔ (7 ≤ month ∨ month ≤ 1))
    ∧ (isMonitoringSeason month = false →
        startHandler month active
          = { active := active, success := false, updateCycles := 0 })
    ∧ (isMonitoringSeason month = true →
        startHandler month active
          = { active := true, success := true, updateCycles := 1 }) := by
  refine ⟨?_, ?_, ?_⟩
  · simp [isMonitoringSeason]
  · intro h; simp [startHandler, h]
  · intro h; simp [startHandler, h]

/-- C9 witness: August is in season, and a start request in March (state
inactive stays as given) versus one in August (state becomes active, one
cycle runs) behave as stated. -/
theorem start_season_gate_witness :
    (isMonitoringSeason 8 = true ↔ (7 ≤ 8 ∨ 8 ≤ 1))
    ∧ startHandler 3 true = { active := true, success := false, updateCycles := 0 }
    ∧ startHandler 8 false = { active := true, success := true, updateCycles := 1 } :=
  ⟨(start_season_gate 8 false).1,
   (start_season_gate 3 true).2.1 (by decide),
   (start_season_gate 8 false).2.2 (by decide)⟩

/-- C10: when exactly one source reading is available,
`combineWeatherSources` returns that reading unchanged - no per-provider
weights, no re-rounding of its rainfall, no rebuilt record. -/
theorem single_source_fusion_identity (s : SourceReading) (zone : Zone) (now : String) :
    combineWeatherSources [s] zone now = .single s := rfl

end RainMonitor
